import Mathlib

/-!
Shallow embedding of the decisivis-engine prediction serving and
self-learning pipeline, together with proofs of its specification
properties.

Embedded source files:
* `src/app/api/predict/route.ts` — the POST prediction handler and the
  local fallback predictor `generatePrediction`;
* `src/app/api/upload/route.ts` — the fabricated-data filter;
* the Gemini self-learning client (outcome buffer `addPrediction`,
  `analyzePerformance`, `identifyPatterns`);
* the retraining controller and cache-fronted predict endpoint shown in
  `src/ARCHITECTURE.md` (`retrain_model`, `predict` with the Redis cache).

JavaScript numbers are modelled as `ℚ`; the special values NaN/Infinity
produced by dividing by zero are modelled by the `JSNum` type where the
source can produce them.  Missing JSON fields are modelled with `Option`.
-/

namespace Decisivis

/-! ### Fallback predictor — `src/app/api/predict/route.ts`, `generatePrediction` -/

/-- Feature payload read by `generatePrediction` (`features.home_shots_on_target`,
`features.away_shots_on_target`, `features.home_elo`, `features.away_elo`,
`features.home_form`, `features.away_form`). -/
structure Features where
  home_shots_on_target : ℚ
  away_shots_on_target : ℚ
  home_elo : ℚ
  away_elo : ℚ
  home_form : ℚ
  away_form : ℚ
deriving DecidableEq

/-- The `probabilities` object of a prediction. -/
structure Probs where
  home : ℚ
  draw : ℚ
  away : ℚ
deriving DecidableEq

/-- The object returned by `generatePrediction`:
`{ result, confidence, probabilities }`. -/
structure PredOutput where
  result : String
  confidence : ℚ
  probabilities : Probs
deriving DecidableEq

/-- The final `// Determine result` block of `generatePrediction`:
starting from `result = 'H'`, `confidence = homeProb`, override with `'D'`
when `drawProb > homeProb && drawProb > awayProb`, else with `'A'` when
`awayProb > homeProb`. -/
def decideOutcome (homeProb drawProb awayProb : ℚ) : String × ℚ :=
  if drawProb > homeProb ∧ drawProb > awayProb then ("D", drawProb)
  else if awayProb > homeProb then ("A", awayProb)
  else ("H", homeProb)

/-- `generatePrediction(features)` from `src/app/api/predict/route.ts`:
base probabilities 0.43/0.26/0.31, feature-driven additive adjustments,
normalization by the total, then outcome selection. -/
def generatePrediction (features : Features) : PredOutput :=
  let shotDiff := features.home_shots_on_target - features.away_shots_on_target
  let eloDiff := features.home_elo - features.away_elo
  let formDiff := features.home_form - features.away_form
  let homeProb : ℚ := 43/100
  let drawProb : ℚ := 26/100
  let awayProb : ℚ := 31/100
  let homeProb := if shotDiff > 2 then homeProb + 15/100 else homeProb
  let awayProb := if shotDiff < -2 then awayProb + 15/100 else awayProb
  let homeProb := if eloDiff > 100 then homeProb + 10/100 else homeProb
  let awayProb := if eloDiff < -100 then awayProb + 10/100 else awayProb
  let homeProb := if formDiff > 3/10 then homeProb + 5/100 else homeProb
  let awayProb := if formDiff < -(3/10) then awayProb + 5/100 else awayProb
  let total := homeProb + drawProb + awayProb
  let homeProb := homeProb / total
  let drawProb := drawProb / total
  let awayProb := awayProb / total
  let rc := decideOutcome homeProb drawProb awayProb
  { result := rc.1
    confidence := rc.2
    probabilities := { home := homeProb, draw := drawProb, away := awayProb } }

example :
    (generatePrediction ⟨6, 2, 1600, 1400, 8/10, 3/10⟩).result = "H" := by
  norm_num [generatePrediction, decideOutcome]

example :
    (generatePrediction ⟨0, 0, 0, 0, 0, 0⟩).probabilities.home = 43/100 := by
  norm_num [generatePrediction, decideOutcome]

set_option maxHeartbeats 3200000 in
/-- C1: for every feature input accepted by the fallback predictor
`generatePrediction`, the three returned probabilities sum to 1 (exactly, in
the rational model, hence within floating-point tolerance), the reported
confidence equals the maximum of the three probabilities, and exactly one
probability equals the confidence. -/
theorem fallback_probabilities_sum_and_confidence (f : Features) :
    (generatePrediction f).probabilities.home + (generatePrediction f).probabilities.draw
        + (generatePrediction f).probabilities.away = 1
      ∧ (generatePrediction f).confidence =
          max (max (generatePrediction f).probabilities.home
            (generatePrediction f).probabilities.draw) (generatePrediction f).probabilities.away
      ∧ (((generatePrediction f).probabilities.home = (generatePrediction f).confidence
            ∧ (generatePrediction f).probabilities.draw ≠ (generatePrediction f).confidence
            ∧ (generatePrediction f).probabilities.away ≠ (generatePrediction f).confidence)
        ∨ ((generatePrediction f).probabilities.draw = (generatePrediction f).confidence
            ∧ (generatePrediction f).probabilities.home ≠ (generatePrediction f).confidence
            ∧ (generatePrediction f).probabilities.away ≠ (generatePrediction f).confidence)
        ∨ ((generatePrediction f).probabilities.away = (generatePrediction f).confidence
            ∧ (generatePrediction f).probabilities.home ≠ (generatePrediction f).confidence
            ∧ (generatePrediction f).probabilities.draw ≠ (generatePrediction f).confidence)) := by
  simp only [generatePrediction, decideOutcome]
  split_ifs <;> norm_num [max_def] at *

/-- Witness for C1 at the spec's scenario features. -/
theorem fallback_probabilities_sum_and_confidence_witness :
    (generatePrediction ⟨6, 2, 1600, 1400, 8/10, 3/10⟩).probabilities.home
        + (generatePrediction ⟨6, 2, 1600, 1400, 8/10, 3/10⟩).probabilities.draw
        + (generatePrediction ⟨6, 2, 1600, 1400, 8/10, 3/10⟩).probabilities.away = 1 :=
  (fallback_probabilities_sum_and_confidence ⟨6, 2, 1600, 1400, 8/10, 3/10⟩).1

/-- C9: the fallback predictor resolves ties in favour of Home: the outcome
is `"D"` exactly when the draw probability strictly exceeds both others, is
`"A"` exactly when it is not `"D"` and the away probability strictly exceeds
the home probability, and in every other case — including exact ties between
home and another outcome — the outcome is `"H"` with confidence equal to the
home probability.  `generatePrediction` computes its `result`/`confidence`
through `decideOutcome` applied to its three normalized probabilities. -/
theorem fallback_outcome_tie_breaking :
    (∀ f : Features,
        (generatePrediction f).result =
          (decideOutcome (generatePrediction f).probabilities.home
            (generatePrediction f).probabilities.draw
            (generatePrediction f).probabilities.away).1
        ∧ (generatePrediction f).confidence =
          (decideOutcome (generatePrediction f).probabilities.home
            (generatePrediction f).probabilities.draw
            (generatePrediction f).probabilities.away).2)
    ∧ (∀ homeProb drawProb awayProb : ℚ,
        ((decideOutcome homeProb drawProb awayProb).1 = "D" ↔
          drawProb > homeProb ∧ drawProb > awayProb)
        ∧ ((decideOutcome homeProb drawProb awayProb).1 = "A" ↔
          ¬(drawProb > homeProb ∧ drawProb > awayProb) ∧ awayProb > homeProb)
        ∧ (¬(drawProb > homeProb ∧ drawProb > awayProb) → ¬(awayProb > homeProb) →
          decideOutcome homeProb drawProb awayProb = ("H", homeProb))) := by
  refine ⟨fun f => ⟨rfl, rfl⟩, fun homeProb drawProb awayProb => ?_⟩
  unfold decideOutcome
  split_ifs with h1 h2 <;> simp_all

/-- Witness for C9: on an exact three-way tie the outcome is Home with the
home probability as confidence. -/
theorem fallback_outcome_tie_breaking_witness :
    decideOutcome 1 1 1 = ("H", 1) :=
  (fallback_outcome_tie_breaking.2 1 1 1).2.2 (by norm_num) (by norm_num)

/-! ### POST prediction handler — `src/app/api/predict/route.ts`, `POST`

The handler's effects are sequentialized: the session check, the
missing-team check, the upstream Railway call (its outcome modelled as an
`Option RailwayData`, `none` meaning `!response.ok`), and the local
fallback.  JavaScript falsy team strings are modelled as `""`; a missing
`features` object is `none`, in which case the fallback path throws and the
surrounding `catch` returns the 500 `'Prediction failed'` response. -/

/-- Body of a successful Railway API response (`data.prediction`,
`data.confidence`, `data.probabilities`). -/
structure RailwayData where
  prediction : String
  confidence : ℚ
  probabilities : Probs
deriving DecidableEq

/-- A response from the POST handler: either an error JSON with an HTTP
status, or a prediction together with the `analysis.source` field. -/
inductive PostResponse where
  | err : String → ℕ → PostResponse
  | ok : PredOutput → String → PostResponse
deriving DecidableEq

/-- Whether a handler response is an error response. -/
def isErr : PostResponse → Bool
  | PostResponse.err _ _ => true
  | PostResponse.ok _ _ => false

/-- The POST handler of `src/app/api/predict/route.ts`. -/
def postPredict (session : Bool) (homeTeam awayTeam : String) (features : Option Features)
    (railway : Option RailwayData) : PostResponse :=
  if !session then PostResponse.err "Unauthorized" 401
  else if homeTeam == "" || awayTeam == "" then PostResponse.err "Missing team information" 400
  else
    match railway with
    | some data =>
        PostResponse.ok ⟨data.prediction, data.confidence, data.probabilities⟩ "railway-api"
    | none =>
        match features with
        | some fs => PostResponse.ok (generatePrediction fs) "fallback"
        | none => PostResponse.err "Prediction failed" 500

/-- Counterexample to C5: with valid teams and a failed upstream call the
handler answers with a locally generated fallback prediction (source
`"fallback"`), not with an error. -/
theorem upstream_failure_returns_fallback_cex :
    postPredict true "Arsenal" "Chelsea" (some ⟨6, 2, 1600, 1400, 8/10, 3/10⟩) none =
        PostResponse.ok (generatePrediction ⟨6, 2, 1600, 1400, 8/10, 3/10⟩) "fallback"
      ∧ isErr (postPredict true "Arsenal" "Chelsea" (some ⟨6, 2, 1600, 1400, 8/10, 3/10⟩) none)
          = false := by
  constructor <;> rfl

/-- C5 (amended): when the upstream prediction backend fails, the handler
does not surface an error; for any authenticated request with non-empty
teams and a features payload it substitutes the local fallback prediction
and reports source `"fallback"`. -/
theorem upstream_failure_falls_back_locally (homeTeam awayTeam : String) (fs : Features)
    (hh : homeTeam ≠ "") (ha : awayTeam ≠ "") :
    postPredict true homeTeam awayTeam (some fs) none =
      PostResponse.ok (generatePrediction fs) "fallback" := by
  simp [postPredict, hh, ha]

/-- Witness for the amended C5. -/
theorem upstream_failure_falls_back_locally_witness :
    postPredict true "Leeds" "Everton" (some ⟨1, 1, 1500, 1500, 1/2, 1/2⟩) none =
      PostResponse.ok (generatePrediction ⟨1, 1, 1500, 1500, 1/2, 1/2⟩) "fallback" :=
  upstream_failure_falls_back_locally "Leeds" "Everton" ⟨1, 1, 1500, 1500, 1/2, 1/2⟩
    (by decide) (by decide)

/-- Counterexample to C7: a request whose home and away teams are
identical (`"Arsenal"` vs `"Arsenal"`) is not rejected; the handler returns
a prediction. -/
theorem identical_teams_not_rejected_cex :
    postPredict true "Arsenal" "Arsenal" none (some ⟨"H", 3/4, ⟨1/2, 1/4, 1/4⟩⟩) =
        PostResponse.ok ⟨"H", 3/4, ⟨1/2, 1/4, 1/4⟩⟩ "railway-api"
      ∧ isErr (postPredict true "Arsenal" "Arsenal" none (some ⟨"H", 3/4, ⟨1/2, 1/4, 1/4⟩⟩))
          = false := by
  constructor <;> rfl

/-- C7 (amended): the only team validation performed by the handler is the
missing-team check — the `'Missing team information'` (status 400) response
occurs exactly when a team string is empty/missing; identical non-empty
team names are not rejected and a prediction is returned for them. -/
theorem team_validation_rejects_only_missing :
    (∀ (homeTeam awayTeam : String) (fs : Option Features) (railway : Option RailwayData),
        postPredict true homeTeam awayTeam fs railway =
            PostResponse.err "Missing team information" 400 ↔
          homeTeam = "" ∨ awayTeam = "")
      ∧ (∀ (homeTeam awayTeam : String) (d : RailwayData), homeTeam ≠ "" → awayTeam ≠ "" →
          isErr (postPredict true homeTeam awayTeam none (some d)) = false) := by
  constructor
  · intro homeTeam awayTeam fs railway
    by_cases hh : homeTeam = "" <;> by_cases ha : awayTeam = "" <;>
      cases railway <;> cases fs <;> simp [postPredict, isErr, hh, ha]
  · intro homeTeam awayTeam d hh ha
    simp [postPredict, isErr, hh, ha]

/-- Witness for the amended C7: identical non-empty teams pass validation. -/
theorem team_validation_rejects_only_missing_witness :
    isErr (postPredict true "Liverpool" "Liverpool" none (some ⟨"A", 2/3, ⟨1/5, 1/5, 3/5⟩⟩))
      = false :=
  team_validation_rejects_only_missing.2 "Liverpool" "Liverpool" ⟨"A", 2/3, ⟨1/5, 1/5, 3/5⟩⟩
    (by decide) (by decide)

/-! ### Upload validation — `src/app/api/upload/route.ts`, `POST`

A parsed match record's numeric fields are modelled after `parseInt`:
`Option ℤ` with `none` for an absent field, which the filter defaults to 0
(`parseInt(match.home_shots_on_target || '0')`).  Remaining CSV/JSON
columns are kept opaque in `extra`. -/

/-- One uploaded match record, as read by the validation filter. -/
structure MatchRecord where
  home_shots_on_target : Option ℤ
  away_shots_on_target : Option ℤ
  home_goals : Option ℤ
  away_goals : Option ℤ
  extra : List (String × String)
deriving DecidableEq

/-- The predicate of the `validatedMatches` filter: `!homeFake && !awayFake`
where a side is fake when its shots-on-target equal its goals + 2. -/
def recordPassesValidation (m : MatchRecord) : Bool :=
  let homeShotsOnTarget := m.home_shots_on_target.getD 0
  let awayShotsOnTarget := m.away_shots_on_target.getD 0
  let homeGoals := m.home_goals.getD 0
  let awayGoals := m.away_goals.getD 0
  let homeFake := homeShotsOnTarget == homeGoals + 2
  let awayFake := awayShotsOnTarget == awayGoals + 2
  !homeFake && !awayFake

/-- `const validatedMatches = matches.filter(...)` from the upload route. -/
def validatedMatches (ms : List MatchRecord) : List MatchRecord :=
  ms.filter recordPassesValidation

/-- C8: the validation step keeps a record if and only if neither side
matches the fabrication pattern (shots-on-target = goals + 2), and the kept
records pass through unchanged and in order (the output is a sublist of the
input). -/
theorem upload_filter_keeps_iff_not_fabricated (ms : List MatchRecord) (m : MatchRecord) :
    (m ∈ validatedMatches ms ↔
        m ∈ ms
          ∧ ¬ m.home_shots_on_target.getD 0 = m.home_goals.getD 0 + 2
          ∧ ¬ m.away_shots_on_target.getD 0 = m.away_goals.getD 0 + 2)
      ∧ (validatedMatches ms).Sublist ms := by
  constructor
  · simp [validatedMatches, recordPassesValidation, List.mem_filter, and_assoc]
  · exact List.filter_sublist _

/-- A sample well-formed uploaded record (shots-on-target do not equal
goals + 2 on either side). -/
def sampleMatch : MatchRecord :=
  { home_shots_on_target := some 5, away_shots_on_target := some 1
    home_goals := some 2, away_goals := some 1
    extra := [("home_team", "Leeds"), ("away_team", "Everton")] }

/-- Witness for C8. -/
theorem upload_filter_keeps_iff_not_fabricated_witness :
    (validatedMatches [sampleMatch]).Sublist [sampleMatch]
      ∧ (sampleMatch ∈ validatedMatches [sampleMatch] ↔
          sampleMatch ∈ [sampleMatch]
            ∧ ¬ sampleMatch.home_shots_on_target.getD 0 = sampleMatch.home_goals.getD 0 + 2
            ∧ ¬ sampleMatch.away_shots_on_target.getD 0 = sampleMatch.away_goals.getD 0 + 2) :=
  ⟨(upload_filter_keeps_iff_not_fabricated [sampleMatch] sampleMatch).2,
    (upload_filter_keeps_iff_not_fabricated [sampleMatch] sampleMatch).1⟩

/-! ### Gemini self-learning client — `src/unnamed/part_009`, `GeminiClient`

The client's mutable fields are collected in `GeminiState`
(`this.model`'s availability as a `Bool`, `this.analysisBuffer`).  The
external Gemini call `generateSuggestions` is modelled as an oracle
parameter.  `analyzePerformance` additionally returns its internal
`predictions` snapshot (the drained records) so that specifications can
speak about what a drain consumed. -/

/-- One entry of the analysis buffer (interface `PredictionAnalysis`);
`features: Record<string, number>` is an insertion-ordered key/value list. -/
structure PredictionAnalysis where
  matchId : ℤ
  predicted : String
  actual : String
  confidence : ℚ
  features : List (String × ℚ)
  correct : Bool
deriving DecidableEq

/-- `private readonly BUFFER_SIZE = 100`. -/
def BUFFER_SIZE : ℕ := 100

/-- `p.features.shot_diff || 0`: property access with 0 for a missing key
(a stored 0 is falsy in JavaScript and also yields 0). -/
def featureGet (fs : List (String × ℚ)) (key : String) : ℚ :=
  ((fs.find? (fun kv => kv.1 == key)).map (fun kv => kv.2)).getD 0

/-- The `patterns` object produced by `identifyPatterns`. -/
structure Patterns where
  highConfidenceFailures : ℕ
  featureOutliers : ℕ
  commonMistakes : List String
deriving DecidableEq

/-- A JavaScript number that may be the result of a division: a finite
rational, `NaN` (from `0/0`), or `Infinity` (from `x/0`, `x ≠ 0`). -/
inductive JSNum where
  | num : ℚ → JSNum
  | nan : JSNum
  | inf : JSNum
deriving DecidableEq

/-- JavaScript division of two non-negative counters. -/
def jsDiv (a b : ℕ) : JSNum :=
  if b = 0 then (if a = 0 then JSNum.nan else JSNum.inf)
  else JSNum.num ((a : ℚ) / (b : ℚ))

/-- `mistakeTypes[key] = (mistakeTypes[key] || 0) + 1` on a JavaScript
object, which preserves first-insertion key order. -/
def bumpMistake (acc : List (String × ℕ)) (key : String) : List (String × ℕ) :=
  if acc.any (fun kv => kv.1 == key) then
    acc.map (fun kv => if kv.1 == key then (kv.1, kv.2 + 1) else kv)
  else acc ++ [(key, 1)]

/-- Insertion step of the stable descending-by-count sort. -/
def insertByCountDesc (x : String × ℕ) : List (String × ℕ) → List (String × ℕ)
  | [] => [x]
  | y :: ys => if y.2 < x.2 then x :: y :: ys else y :: insertByCountDesc x ys

/-- Stable sort by descending count, modelling
`Object.entries(mistakeTypes).sort((a, b) => b[1] - a[1])`
(JavaScript `Array.prototype.sort` is stable). -/
def sortByCountDesc : List (String × ℕ) → List (String × ℕ)
  | [] => []
  | x :: xs => insertByCountDesc x (sortByCountDesc xs)

/-- `identifyPatterns(predictions)` of the Gemini client. -/
def identifyPatterns (predictions : List PredictionAnalysis) : Patterns :=
  let mispredictions := predictions.filter (fun p => !p.correct)
  let highConfidenceFailures :=
    (mispredictions.filter (fun p => decide (p.confidence > 7/10))).length
  let featureOutliers :=
    (mispredictions.filter (fun p =>
      decide (|featureGet p.features "shot_diff"| > 5
        ∨ |featureGet p.features "elo_diff"| > 200))).length
  let mistakeTypes := mispredictions.foldl
    (fun acc p => bumpMistake acc (p.predicted ++ "_to_" ++ p.actual)) []
  let commonMistakes := ((sortByCountDesc mistakeTypes).take 3).map (fun kv => kv.1)
  { highConfidenceFailures := highConfidenceFailures
    featureOutliers := featureOutliers
    commonMistakes := commonMistakes }

/-- A typed improvement suggestion (interface `ImprovementSuggestion`);
the `implementation` payload is kept opaque. -/
structure ImprovementSuggestion where
  type : String
  description : String
  expectedImprovement : ℚ
  implementation : List (String × String)
deriving DecidableEq

/-- The `AnalysisResult` returned by `analyzePerformance`.  Its `accuracy`
is a raw JavaScript division result, hence a `JSNum`. -/
structure AnalysisResult where
  accuracy : JSNum
  suggestions : List ImprovementSuggestion
  patterns : Patterns
deriving DecidableEq

/-- The external `generateSuggestions` Gemini call, as an oracle. -/
def SuggestOracle : Type :=
  List PredictionAnalysis → Patterns → List ImprovementSuggestion

/-- The client's mutable state: whether `this.model` is non-null, and
`this.analysisBuffer`. -/
structure GeminiState where
  geminiAvailable : Bool
  analysisBuffer : List PredictionAnalysis

/-- `analyzePerformance()`: snapshot the buffer, clear it, compute
`accuracy = correct / predictions.length`, identify patterns, and ask the
oracle for suggestions when the model is available and there are more than
5 high-confidence failures.  The middle component is the internal
`predictions` snapshot — the records this drain consumed. -/
def analyzePerformance (oracle : SuggestOracle) (s : GeminiState) :
    GeminiState × List PredictionAnalysis × AnalysisResult :=
  let predictions := s.analysisBuffer
  let cleared : GeminiState := { s with analysisBuffer := [] }
  let correct := (predictions.filter (fun p => p.correct)).length
  let accuracy := jsDiv correct predictions.length
  let patterns := identifyPatterns predictions
  let suggestions :=
    if s.geminiAvailable ∧ patterns.highConfidenceFailures > 5 then
      oracle predictions patterns
    else []
  (cleared, predictions,
    { accuracy := accuracy, suggestions := suggestions, patterns := patterns })

/-- `addPrediction(prediction)`: push onto the buffer, then trigger
`analyzePerformance` when the buffer has reached `BUFFER_SIZE`. -/
def addPrediction (oracle : SuggestOracle) (s : GeminiState) (p : PredictionAnalysis) :
    GeminiState × Option (List PredictionAnalysis × AnalysisResult) :=
  let grown : GeminiState := { s with analysisBuffer := s.analysisBuffer ++ [p] }
  if BUFFER_SIZE ≤ grown.analysisBuffer.length then
    let r := analyzePerformance oracle grown
    (r.1, some r.2)
  else (grown, none)

/-- One step of a sequence of `addPrediction` calls, accumulating the
drained snapshots. -/
def runStep (oracle : SuggestOracle) (st : GeminiState × List (List PredictionAnalysis))
    (p : PredictionAnalysis) : GeminiState × List (List PredictionAnalysis) :=
  ((addPrediction oracle st.1 p).1,
    st.2 ++ (Option.map Prod.fst (addPrediction oracle st.1 p).2).toList)

/-- A whole sequence of `addPrediction` calls starting from a given state,
returning the final state and every drained snapshot in order. -/
def runAppends (oracle : SuggestOracle) (s : GeminiState) (ps : List PredictionAnalysis) :
    GeminiState × List (List PredictionAnalysis) :=
  ps.foldl (runStep oracle) (s, [])

/-- Invariant of the append loop: the drained snapshots plus the live
buffer hold exactly the appended records, every new drain has exactly
`BUFFER_SIZE` records, and the buffer stays below capacity. -/
theorem runStep_fold_inv (oracle : SuggestOracle) (ps : List PredictionAnalysis) :
    ∀ (s : GeminiState) (acc : List (List PredictionAnalysis)),
      s.analysisBuffer.length < BUFFER_SIZE →
      ((ps.foldl (runStep oracle) (s, acc)).2.flatten
            ++ (ps.foldl (runStep oracle) (s, acc)).1.analysisBuffer
          = acc.flatten ++ s.analysisBuffer ++ ps)
        ∧ (∀ d ∈ (ps.foldl (runStep oracle) (s, acc)).2, d ∈ acc ∨ d.length = BUFFER_SIZE)
        ∧ (ps.foldl (runStep oracle) (s, acc)).1.analysisBuffer.length < BUFFER_SIZE := by
  induction ps with
  | nil =>
      intro s acc h
      exact ⟨by simp, fun d hd => Or.inl hd, h⟩
  | cons p ps ih =>
      intro s acc h
      rw [List.foldl_cons]
      by_cases hfull : BUFFER_SIZE ≤ s.analysisBuffer.length + 1
      · have hstep : runStep oracle (s, acc) p =
            ({ s with analysisBuffer := [] }, acc ++ [s.analysisBuffer ++ [p]]) := by
          simp [runStep, addPrediction, analyzePerformance, hfull]
        rw [hstep]
        obtain ⟨h1, h2, h3⟩ := ih { s with analysisBuffer := [] }
          (acc ++ [s.analysisBuffer ++ [p]]) (by simp [BUFFER_SIZE])
        refine ⟨?_, ?_, h3⟩
        · rw [h1]; simp
        · intro d hd
          rcases h2 d hd with hmem | hlen
          · rcases List.mem_append.mp hmem with h' | h'
            · exact Or.inl h'
            · right
              have hd' : d = s.analysisBuffer ++ [p] := by simpa using h'
              have hlen99 : s.analysisBuffer.length + 1 = BUFFER_SIZE := by omega
              simp [hd', hlen99]
          · exact Or.inr hlen
      · have hstep : runStep oracle (s, acc) p =
            ({ s with analysisBuffer := s.analysisBuffer ++ [p] }, acc) := by
          simp [runStep, addPrediction, hfull]
        rw [hstep]
        obtain ⟨h1, h2, h3⟩ := ih { s with analysisBuffer := s.analysisBuffer ++ [p] }
          acc (by simp; omega)
        refine ⟨?_, h2, h3⟩
        rw [h1]; simp

/-- C3: the outcome/analysis buffer (capacity `BUFFER_SIZE = 100`) drains
exactly when an append reaches capacity — never on the (N−1)th append —
each drain consumes the whole buffer (the appended record included) and
leaves it empty; over any append sequence from an empty buffer the drained
snapshots concatenated with the remaining buffer are exactly the appended
records (no record is drained twice or lost) and every drain holds exactly
`BUFFER_SIZE` records. -/
theorem outcome_buffer_drains_exactly_at_capacity :
    (∀ (oracle : SuggestOracle) (s : GeminiState) (p : PredictionAnalysis),
        ((addPrediction oracle s p).2.isSome ↔ BUFFER_SIZE ≤ s.analysisBuffer.length + 1)
        ∧ (s.analysisBuffer.length + 1 = BUFFER_SIZE →
            (addPrediction oracle s p).1.analysisBuffer = []
            ∧ Option.map Prod.fst (addPrediction oracle s p).2
                = some (s.analysisBuffer ++ [p])))
      ∧ (∀ (oracle : SuggestOracle) (g : Bool) (ps : List PredictionAnalysis),
          (runAppends oracle ⟨g, []⟩ ps).2.flatten
              ++ (runAppends oracle ⟨g, []⟩ ps).1.analysisBuffer = ps
          ∧ (∀ d ∈ (runAppends oracle ⟨g, []⟩ ps).2, d.length = BUFFER_SIZE)
          ∧ (runAppends oracle ⟨g, []⟩ ps).1.analysisBuffer.length < BUFFER_SIZE) := by
  constructor
  · intro oracle s p
    refine ⟨?_, ?_⟩
    · by_cases hfull : BUFFER_SIZE ≤ s.analysisBuffer.length + 1 <;>
        simp [addPrediction, hfull]
    · intro hcap
      have hfull : BUFFER_SIZE ≤ s.analysisBuffer.length + 1 := le_of_eq hcap.symm
      simp [addPrediction, analyzePerformance, hfull]
  · intro oracle g ps
    obtain ⟨h1, h2, h3⟩ := runStep_fold_inv oracle ps ⟨g, []⟩ [] (by simp [BUFFER_SIZE])
    refine ⟨?_, ?_, h3⟩
    · simpa [runAppends] using h1
    · intro d hd
      have := h2 d (by simpa [runAppends] using hd)
      simpa using this

/-- A sample buffered record used in witnesses and counterexamples. -/
def sampleAnalysis : PredictionAnalysis :=
  { matchId := 1, predicted := "H", actual := "A", confidence := 9/10
    features := [("shot_diff", 3), ("elo_diff", 120)], correct := false }

/-- An oracle that, like the client with no Gemini key, yields no
suggestions. -/
def noSuggestions : SuggestOracle := fun _ _ => []

/-- Witness for C3: appending the 100th record to a 99-record buffer
drains all 100 records and leaves the buffer empty. -/
theorem outcome_buffer_drains_exactly_at_capacity_witness :
    (addPrediction noSuggestions ⟨true, List.replicate 99 sampleAnalysis⟩
          sampleAnalysis).1.analysisBuffer = []
      ∧ Option.map Prod.fst (addPrediction noSuggestions
            ⟨true, List.replicate 99 sampleAnalysis⟩ sampleAnalysis).2
          = some (List.replicate 99 sampleAnalysis ++ [sampleAnalysis]) :=
  (outcome_buffer_drains_exactly_at_capacity.1 noSuggestions
      ⟨true, List.replicate 99 sampleAnalysis⟩ sampleAnalysis).2
    (by simp [BUFFER_SIZE])

/-- Counterexample to C6: re-reporting a record already in the buffer is
not rejected — the buffer's observable length grows from 1 to 2. -/
theorem duplicate_report_not_rejected_cex :
    (addPrediction noSuggestions ⟨true, [sampleAnalysis]⟩ sampleAnalysis).1.analysisBuffer
        = [sampleAnalysis, sampleAnalysis]
      ∧ (addPrediction noSuggestions ⟨true, [sampleAnalysis]⟩
            sampleAnalysis).1.analysisBuffer.length
          ≠ ([sampleAnalysis] : List PredictionAnalysis).length := by
  refine ⟨?_, ?_⟩
  · simp [addPrediction, BUFFER_SIZE]
  · simp [addPrediction, BUFFER_SIZE]

/-- C6 (amended): `addPrediction` appends unconditionally — a duplicate
report for an already-recorded prediction reference is not rejected, and
(below capacity) it increments the buffer's observable length by one. -/
theorem duplicate_report_increments_buffer (oracle : SuggestOracle) (s : GeminiState)
    (p : PredictionAnalysis) (hp : p ∈ s.analysisBuffer)
    (hlen : s.analysisBuffer.length + 1 < BUFFER_SIZE) :
    (addPrediction oracle s p).1.analysisBuffer.length = s.analysisBuffer.length + 1 := by
  have hfull : ¬ BUFFER_SIZE ≤ s.analysisBuffer.length + 1 := by omega
  simp [addPrediction, hfull]

/-- Witness for the amended C6. -/
theorem duplicate_report_increments_buffer_witness :
    (addPrediction noSuggestions ⟨true, [sampleAnalysis]⟩ sampleAnalysis).1.analysisBuffer.length
      = ([sampleAnalysis] : List PredictionAnalysis).length + 1 :=
  duplicate_report_increments_buffer noSuggestions ⟨true, [sampleAnalysis]⟩ sampleAnalysis
    (by simp) (by simp [BUFFER_SIZE])

/-- C10: `analyzePerformance` divides by the number of buffered
predictions with no emptiness guard: on an empty buffer the computed
accuracy is `NaN` (`0/0`, not a valid number), while under the
precondition of at least one buffered prediction it is the finite rational
`correct / predictions.length`. -/
theorem analyze_accuracy_unguarded_division :
    (∀ (oracle : SuggestOracle) (g : Bool),
        (analyzePerformance oracle ⟨g, []⟩).2.2.accuracy = JSNum.nan)
      ∧ (∀ (oracle : SuggestOracle) (s : GeminiState), s.analysisBuffer ≠ [] →
          (analyzePerformance oracle s).2.2.accuracy =
            JSNum.num (((s.analysisBuffer.filter (fun p => p.correct)).length : ℚ)
              / (s.analysisBuffer.length : ℚ))) := by
  constructor
  · intro oracle g
    simp [analyzePerformance, jsDiv]
  · intro oracle s hs
    have hne : s.analysisBuffer.length ≠ 0 := by
      simpa [List.length_eq_zero] using hs
    simp [analyzePerformance, jsDiv, hne]

/-- Witness for C10: a one-record buffer yields a finite accuracy. -/
theorem analyze_accuracy_unguarded_division_witness :
    (analyzePerformance noSuggestions ⟨true, [sampleAnalysis]⟩).2.2.accuracy =
      JSNum.num (((([sampleAnalysis] : List PredictionAnalysis).filter
            (fun p => p.correct)).length : ℚ)
        / (([sampleAnalysis] : List PredictionAnalysis).length : ℚ)) :=
  analyze_accuracy_unguarded_division.2 noSuggestions ⟨true, [sampleAnalysis]⟩ (by simp)

/-! ### Retraining controller — `src/ARCHITECTURE.md`, `SelfLearningSystem.retrain_model` -/

/-- A trained classifier with its measured accuracy (`new_model.accuracy`
after `fit`); the version number orders successive models. -/
structure TrainedModel where
  version : ℕ
  accuracy : ℚ
deriving DecidableEq

/-- The self-learning system's state relevant to promotion: `self.model`
and `self.current_accuracy` (the incumbent's last-measured accuracy). -/
structure SelfLearningState where
  model : TrainedModel
  current_accuracy : ℚ
deriving DecidableEq

/-- The promotion decision inside `retrain_model`:
`if new_model.accuracy > self.current_accuracy: self.model = new_model`,
otherwise nothing happens. -/
def retrain_model (s : SelfLearningState) (new_model : TrainedModel) : SelfLearningState :=
  if new_model.accuracy > s.current_accuracy then { s with model := new_model } else s

/-- C2: a retraining candidate replaces the active model exactly when its
measured accuracy strictly exceeds the incumbent's last-measured accuracy;
when it is less than or equal (ties included) the candidate is discarded
and the state — active model and its version included — is unchanged. -/
theorem candidate_promoted_iff_strictly_better (s : SelfLearningState) (nm : TrainedModel) :
    (nm.accuracy > s.current_accuracy → retrain_model s nm = { s with model := nm })
      ∧ (nm.accuracy ≤ s.current_accuracy →
          retrain_model s nm = s ∧ (retrain_model s nm).model.version = s.model.version) := by
  constructor
  · intro h
    simp [retrain_model, h]
  · intro h
    have h' : ¬ nm.accuracy > s.current_accuracy := not_lt.mpr h
    simp [retrain_model, h']

/-- Witness for C2, the spec's own scenario: a candidate at accuracy 0.70
against an incumbent measured at 0.72 is discarded and the version is
unchanged, while a candidate at 0.75 is promoted. -/
theorem candidate_promoted_iff_strictly_better_witness :
    (retrain_model ⟨⟨3, 72/100⟩, 72/100⟩ ⟨4, 70/100⟩ = ⟨⟨3, 72/100⟩, 72/100⟩
        ∧ (retrain_model ⟨⟨3, 72/100⟩, 72/100⟩ ⟨4, 70/100⟩).model.version = 3)
      ∧ retrain_model ⟨⟨3, 72/100⟩, 72/100⟩ ⟨4, 75/100⟩ = ⟨⟨4, 75/100⟩, 72/100⟩ :=
  ⟨(candidate_promoted_iff_strictly_better ⟨⟨3, 72/100⟩, 72/100⟩ ⟨4, 70/100⟩).2 (by norm_num),
    (candidate_promoted_iff_strictly_better ⟨⟨3, 72/100⟩, 72/100⟩ ⟨4, 75/100⟩).1 (by norm_num)⟩

/-! ### Cache-fronted predict endpoint — `src/ARCHITECTURE.md`, `@app.post("/predict")`

The Redis keyspace is a list of `(key, ttl, value)` entries; `setex`
prepends and `get` takes the newest entry for a key, so prepending is
observationally an overwrite.  Feature retrieval
(`get_match_features`) is external, so the endpoint takes the features as
an argument; the model is the currently active classifier. -/

/-- The active classifier: a version and its `predict` function returning
`(outcome, confidence)`. -/
structure PyModel where
  version : ℕ
  predict : List ℚ → String × ℚ

/-- The JSON body cached and returned by the endpoint. -/
structure PredictResult where
  prediction : String
  confidence : ℚ
  features_used : ℕ
  model_accuracy : ℚ
deriving DecidableEq

/-- The Redis keyspace. -/
def Redis : Type := List (String × ℕ × PredictResult)

/-- `redis.get(cache_key)`. -/
def redisGet (r : Redis) (key : String) : Option PredictResult :=
  (r.find? (fun e => e.1 == key)).map (fun e => e.2.2)

/-- `redis.setex(cache_key, ttl, value)`. -/
def redisSetex (r : Redis) (key : String) (ttl : ℕ) (v : PredictResult) : Redis :=
  (key, ttl, v) :: r

/-- `cache_key = f"{home_team}:{away_team}:{date}"`. -/
def cache_key (home_team away_team date : String) : String :=
  home_team ++ ":" ++ away_team ++ ":" ++ date

/-- The `/predict` endpoint: serve from cache when the fingerprint hits,
otherwise predict with the active model and cache the result for 3600
seconds. -/
def predictEndpoint (model : PyModel) (redis : Redis) (home_team away_team date : String)
    (features : List ℚ) : PredictResult × Redis :=
  match redisGet redis (cache_key home_team away_team date) with
  | some cached => (cached, redis)
  | none =>
      let oc := model.predict features
      let result : PredictResult :=
        { prediction := oc.1, confidence := oc.2, features_used := 5, model_accuracy := 72/100 }
      (result, redisSetex redis (cache_key home_team away_team date) 3600 result)

/-- Counterexample to C4: the cache key is just `home:away:date` — no
model/feature-vector version — and a prediction cached under model version
1 (predicting `"H"`) is served unchanged after the active model has become
version 2 (which predicts `"A"` on the same features). -/
theorem stale_cache_after_model_swap_cex :
    cache_key "Arsenal" "Chelsea" "2025-01-01" = "Arsenal:Chelsea:2025-01-01"
      ∧ (predictEndpoint ⟨2, fun _ => ("A", 4/5)⟩
            (predictEndpoint ⟨1, fun _ => ("H", 9/10)⟩ [] "Arsenal" "Chelsea" "2025-01-01"
              [1, 0, 1]).2
            "Arsenal" "Chelsea" "2025-01-01" [1, 0, 1]).1.prediction = "H"
      ∧ (PyModel.predict ⟨2, fun _ => ("A", 4/5)⟩ [1, 0, 1]).1 = "A" :=
  ⟨rfl, rfl, rfl⟩

/-- C4 (amended): the cache fingerprint incorporates only home team, away
team and date — not the model version — and entries are not invalidated
when the active model changes: whichever model is active at lookup time, a
cache hit created under an earlier model is served as-is, so a request can
be served a prediction computed under a model that is no longer active.
Entries leave the cache only through the Redis TTL (3600 s). -/
theorem cache_hit_ignores_active_model (m1 m2 : PyModel) (home_team away_team date : String)
    (features : List ℚ) :
    (predictEndpoint m2 (predictEndpoint m1 [] home_team away_team date features).2
        home_team away_team date features).1
      = (predictEndpoint m1 [] home_team away_team date features).1 := by
  simp [predictEndpoint, redisGet, redisSetex, List.find?]

end Decisivis
